import Mathlib

/-!
Shallow embedding of the astronomical solver of the moon-phase visualizer
(`src/lib/astro.ts`) and of the UI boundary around it (`src/App.tsx`).

JavaScript numbers are modelled as exact rationals (`ℚ`) where the program
only performs arithmetic and comparisons on them, and as real numbers (`ℝ`)
where trigonometric functions are applied.  The external ephemeris library
(astronomy-engine) is treated as a black-box provider: its outputs for the
requested instant and observer are collected in an `Ephemeris` record and
the solver is parameterized by it.
-/

namespace Astro

/-- Truncation toward zero, as JavaScript performs it inside the remainder
operator: `ratTrunc q` is `⌊q⌋` for nonnegative `q` and `⌈q⌉` otherwise. -/
def ratTrunc (q : ℚ) : ℤ :=
  if 0 ≤ q then ⌊q⌋ else ⌈q⌉

/-- JavaScript remainder `a % b`, that is `a - b * trunc (a / b)`: the
result carries the sign of the dividend and has magnitude below `|b|`. -/
def jsMod (a b : ℚ) : ℚ :=
  a - b * (ratTrunc (a / b) : ℚ)

/-- Embeds `normalizeHours` (src/lib/astro.ts line 33):
`((hours % 24) + 24) % 24`, mapping any value into `[0, 24)`. -/
def normalizeHours (hours : ℚ) : ℚ :=
  jsMod (jsMod hours 24 + 24) 24

/-- Outputs of the black-box ephemeris provider (astronomy-engine) for the
requested instant and observer, as consumed by `solveMoon`:
`AE.Illumination(Moon, time).phase_fraction` and `.phase_angle`,
`AE.Equator(Moon, time, obs, true, true).ra`, `.dec` and `.dist`, and
`AE.SiderealTime(time)`. -/
structure Ephemeris where
  illumFraction : ℚ
  phaseAngleDeg : ℚ
  ra : ℚ
  dec : ℚ
  dist : ℚ
  gst : ℚ

/-- Embeds the `Inputs` type of src/lib/astro.ts.  The `date` field is
consumed only through the ephemeris provider and therefore lives behind
`Ephemeris`; `elev` defaults to 0 as in `i.elev ?? 0`. -/
structure Inputs where
  lat : ℚ
  lon : ℚ
  elev : ℚ := 0

/-- Embeds the `MoonSolution` record type of src/lib/astro.ts. -/
structure MoonSolution where
  sunDir : ℝ × ℝ × ℝ
  illumFraction : ℚ
  phaseAngleDeg : ℚ
  distanceKm : ℝ
  parallacticAngleRad : ℝ
  ra : ℚ
  dec : ℚ
  phaseName : String
  phaseEmoji : String

/-- Two-argument arctangent with the quadrant conventions of
`Math.atan2(y, x)`. -/
noncomputable def atan2 (y x : ℝ) : ℝ :=
  if 0 < x then Real.arctan (y / x)
  else if x < 0 then
    (if 0 ≤ y then Real.arctan (y / x) + Real.pi
     else Real.arctan (y / x) - Real.pi)
  else
    (if 0 < y then Real.pi / 2
     else if y < 0 then -(Real.pi / 2)
     else 0)

/-- Embeds `getMoonPhase` (src/lib/astro.ts lines 48-119).  The geometric
preamble (geocentric Sun and Moon vectors, their dot and cross products) is
provider work; its two derived quantities — the elongation in degrees and
the waxing flag `crossZ > 0` — are taken as parameters, and the
classification chain is translated verbatim. -/
def getMoonPhase (illumFraction : ℚ) (elongationDeg : ℚ) (isWaxing : Bool) :
    String × String :=
  if illumFraction < 0.01 then ("New Moon", "🌑")
  else if 0.99 < illumFraction then ("Full Moon", "🌕")
  else if |illumFraction - 0.5| < 0.05 then
    (if isWaxing = true ∧ 75 < elongationDeg ∧ elongationDeg < 105 then
      ("First Quarter", "🌓")
    else if isWaxing = false ∧ 75 < elongationDeg ∧ elongationDeg < 105 then
      ("Last Quarter", "🌗")
    else if isWaxing then ("First Quarter", "🌓") else ("Last Quarter", "🌗"))
  else if illumFraction < 0.5 then
    (if isWaxing then ("Waxing Crescent", "🌒") else ("Waning Crescent", "🌘"))
  else
    (if isWaxing then ("Waxing Gibbous", "🌔") else ("Waning Gibbous", "🌖"))

/-- Embeds `solveMoon` (src/lib/astro.ts lines 163-286), parameterized by
the outputs `e` of the ephemeris provider for the requested instant and
observer.  Every binding mirrors a `const` of the source in order. -/
noncomputable def solveMoon (e : Ephemeris) (i : Inputs) : MoonSolution :=
  let illumFraction := e.illumFraction
  let phaseAngleDeg := e.phaseAngleDeg
  let moonAgeRad : ℝ := (phaseAngleDeg : ℝ) * (Real.pi / 180)
  let sunDir : ℝ × ℝ × ℝ := (Real.sin moonAgeRad, 0, Real.cos moonAgeRad)
  let distanceKm : ℝ := (e.dist : ℝ) * 149597870.7
  let ra := e.ra
  let dec := e.dec
  let gst := e.gst
  let lst := normalizeHours (gst + i.lon / 15)
  let H : ℝ := (normalizeHours (lst - ra) : ℝ) * (Real.pi / 12)
  let phi : ℝ := (i.lat : ℝ) * (Real.pi / 180)
  let decRad : ℝ := (dec : ℝ) * (Real.pi / 180)
  let sinH := Real.sin H
  let cosH := Real.cos H
  let tanPhi := Real.tan phi
  let cosDec := Real.cos decRad
  let sinDec := Real.sin decRad
  let denominator := tanPhi * cosDec - sinDec * cosH
  let q := atan2 sinH denominator
  let isWaxing : Bool := decide (phaseAngleDeg ≤ 180)
  let phase : String × String :=
    if illumFraction < 0.01 then ("New Moon", "🌑")
    else if 0.99 < illumFraction then ("Full Moon", "🌕")
    else if |illumFraction - 0.5| < 0.05 then
      (if isWaxing then ("First Quarter", "🌓") else ("Last Quarter", "🌗"))
    else if illumFraction < 0.5 then
      (if isWaxing then ("Waxing Crescent", "🌒") else ("Waning Crescent", "🌘"))
    else
      (if isWaxing then ("Waxing Gibbous", "🌔") else ("Waning Gibbous", "🌖"))
  { sunDir := sunDir
    illumFraction := illumFraction
    phaseAngleDeg := phaseAngleDeg
    distanceKm := distanceKm
    parallacticAngleRad := q
    ra := ra
    dec := dec
    phaseName := phase.1
    phaseEmoji := phase.2 }

/-- Formats a rational with exactly four digits after the decimal point,
modelling `Number.prototype.toFixed(4)`: the sign is emitted first and the
absolute value is rounded to the nearest multiple of `1/10000`, ties toward
the larger value. -/
def toFixed4 (x : ℚ) : String :=
  (if x < 0 then "-" else "")
    ++ toString ((⌊|x| * 10000 + 1 / 2⌋).toNat / 10000) ++ "."
    ++ ("0000".drop (toString ((⌊|x| * 10000 + 1 / 2⌋).toNat % 10000)).length)
    ++ toString ((⌊|x| * 10000 + 1 / 2⌋).toNat % 10000)

/-- The coordinate fallback string of `getLocationName`: the template
literal of src/lib/astro.ts lines 149 and 152. -/
def coordFallback (lat lon : ℚ) : String :=
  toFixed4 lat ++ "°, " ++ toFixed4 lon ++ "°"

/-- JavaScript `a || b` on strings: the empty string (and an absent field,
collapsed to the empty string in this model) is falsy. -/
def jsOr (a b : String) : String :=
  if a = "" then b else a

/-- The `address` object of a Nominatim reverse-geocoding response as
destructured by `getLocationName`; absent fields are modelled as the empty
string, which JavaScript treats exactly like `undefined` in every
expression the function applies to them. -/
structure NominatimAddress where
  city : String
  town : String
  village : String
  county : String
  state : String
  country : String

/-- A parsed Nominatim response body: `data.address` may be absent. -/
structure NominatimResponse where
  address : Option NominatimAddress

/-- Embeds `getLocationName` (src/lib/astro.ts lines 124-154).  The network
fetch and JSON parse are modelled by the `response` parameter: `.error`
covers every way the `try` block can throw (the `catch` branch), `.ok`
carries the parsed body. -/
def getLocationName (lat lon : ℚ) (response : Except String NominatimResponse) :
    String :=
  match response with
  | Except.error _ => coordFallback lat lon
  | Except.ok data =>
    match data.address with
    | some a =>
      let place := jsOr a.city (jsOr a.town (jsOr a.village a.county))
      let region := jsOr a.state a.country
      if place ≠ "" ∧ region ≠ "" then place ++ ", " ++ region
      else if place ≠ "" then place
      else if region ≠ "" then region
      else coordFallback lat lon
    | none => coordFallback lat lon

/-- The fixed fallback `MoonSolution` of the UI boundary
(src/App.tsx lines 107-118). -/
noncomputable def fallbackSolution : MoonSolution :=
  { sunDir := (1, 0, 0)
    illumFraction := 0.5
    phaseAngleDeg := 90
    distanceKm := 384400
    parallacticAngleRad := 0
    ra := 0
    dec := 0
    phaseName := "Unknown"
    phaseEmoji := "🌕" }

/-- Embeds the protective boundary around the solver call in `App`
(src/App.tsx lines 102-120): the `try`/`catch` is modelled by an `Except`
carrying either the result of the solver or the thrown error. -/
noncomputable def appSolveMoon (result : Except String MoonSolution) :
    MoonSolution :=
  match result with
  | Except.ok sol => sol
  | Except.error _ => fallbackSolution

/-- A sample provider output describing a waxing-crescent configuration:
30% illumination, phase angle 60°. -/
def crescentEph : Ephemeris :=
  { illumFraction := 0.3, phaseAngleDeg := 60, ra := 5, dec := 10,
    dist := 0.0026, gst := 3 }

/-- A sample provider output describing a full-moon configuration with
integral field values: 100% illumination, phase angle 0°. -/
def fullEph : Ephemeris :=
  { illumFraction := 1, phaseAngleDeg := 0, ra := 5, dec := 10,
    dist := 1, gst := 3 }

/-- A sample observer at latitude 30°, longitude 0°. -/
def northInputs : Inputs := { lat := 30, lon := 0 }

/-- The same observer mirrored to latitude −30°. -/
def southInputs : Inputs := { lat := -30, lon := 0 }

/-- The 8-way phase partition exactly as the specification words it:
`illumFraction < 0.01` → New Moon; `> 0.99` → Full Moon;
`|illumFraction − 0.5| < 0.05` → First/Last Quarter by waxing state;
remaining `< 0.5` → Waxing/Waning Crescent; else Waxing/Waning Gibbous. -/
def specPhaseName (f : ℚ) (w : Bool) : String :=
  if f < 0.01 then "New Moon"
  else if 0.99 < f then "Full Moon"
  else if |f - 0.5| < 0.05 then (if w then "First Quarter" else "Last Quarter")
  else if f < 0.5 then (if w then "Waxing Crescent" else "Waning Crescent")
  else (if w then "Waxing Gibbous" else "Waning Gibbous")

end Astro

namespace Astro

/-- The JavaScript remainder by 24 always lies strictly between −24 and 24. -/
theorem jsMod_24_bounds (a : ℚ) : -24 < jsMod a 24 ∧ jsMod a 24 < 24 := by
  unfold jsMod ratTrunc
  by_cases h : 0 ≤ a / 24
  · rw [if_pos h]
    have h1 : ((⌊a / 24⌋ : ℚ)) ≤ a / 24 := Int.floor_le _
    have h2 : a / 24 < ⌊a / 24⌋ + 1 := Int.lt_floor_add_one _
    constructor <;> linarith
  · rw [if_neg h]
    have h1 : a / 24 ≤ (⌈a / 24⌉ : ℚ) := Int.le_ceil _
    have h2 : (⌈a / 24⌉ : ℚ) < a / 24 + 1 := Int.ceil_lt_add_one _
    constructor <;> linarith

/-- The JavaScript remainder by 24 of a nonnegative value is nonnegative. -/
theorem jsMod_24_nonneg (a : ℚ) (h : 0 ≤ a) : 0 ≤ jsMod a 24 := by
  unfold jsMod ratTrunc
  have hq : 0 ≤ a / 24 := by positivity
  rw [if_pos hq]
  have h1 : ((⌊a / 24⌋ : ℚ)) ≤ a / 24 := Int.floor_le _
  linarith

/-- The double-remainder idiom of `normalizeHours` lands in `[0, 24)`. -/
theorem normalizeHours_bounds (h : ℚ) :
    0 ≤ normalizeHours h ∧ normalizeHours h < 24 := by
  unfold normalizeHours
  have hb := jsMod_24_bounds h
  exact ⟨jsMod_24_nonneg _ (by linarith [hb.1]), (jsMod_24_bounds _).2⟩

/-- The phase-name field of `solveMoon` is exactly the classification chain
of the specification applied to the illumination fraction and the waxing
flag `phaseAngleDeg ≤ 180`. -/
theorem solveMoon_phaseName_eq (e : Ephemeris) (i : Inputs) :
    (solveMoon e i).phaseName =
      specPhaseName e.illumFraction (decide (e.phaseAngleDeg ≤ 180)) := by
  unfold solveMoon specPhaseName
  dsimp only
  simp only [apply_ite Prod.fst]

/-- The name produced by `getMoonPhase` agrees with the classification
chain of the specification for every elongation value: the inner
elongation test of the quarter branch never changes the outcome. -/
theorem getMoonPhase_name_eq (f elong : ℚ) (w : Bool) :
    (getMoonPhase f elong w).1 = specPhaseName f w := by
  unfold getMoonPhase specPhaseName
  split_ifs <;> simp_all

/-- Characterization of the 8-way partition: each of the eight labels is
produced exactly on its threshold region, so for every input exactly one
label fires. -/
theorem specPhaseName_iffs (f : ℚ) (w : Bool) :
    (specPhaseName f w = "New Moon" ↔ f < 0.01)
    ∧ (specPhaseName f w = "Full Moon" ↔ ¬f < 0.01 ∧ 0.99 < f)
    ∧ (specPhaseName f w = "First Quarter" ↔
        ¬f < 0.01 ∧ ¬0.99 < f ∧ |f - 0.5| < 0.05 ∧ w = true)
    ∧ (specPhaseName f w = "Last Quarter" ↔
        ¬f < 0.01 ∧ ¬0.99 < f ∧ |f - 0.5| < 0.05 ∧ w = false)
    ∧ (specPhaseName f w = "Waxing Crescent" ↔
        ¬f < 0.01 ∧ ¬0.99 < f ∧ ¬|f - 0.5| < 0.05 ∧ f < 0.5 ∧ w = true)
    ∧ (specPhaseName f w = "Waning Crescent" ↔
        ¬f < 0.01 ∧ ¬0.99 < f ∧ ¬|f - 0.5| < 0.05 ∧ f < 0.5 ∧ w = false)
    ∧ (specPhaseName f w = "Waxing Gibbous" ↔
        ¬f < 0.01 ∧ ¬0.99 < f ∧ ¬|f - 0.5| < 0.05 ∧ ¬f < 0.5 ∧ w = true)
    ∧ (specPhaseName f w = "Waning Gibbous" ↔
        ¬f < 0.01 ∧ ¬0.99 < f ∧ ¬|f - 0.5| < 0.05 ∧ ¬f < 0.5 ∧ w = false) := by
  unfold specPhaseName
  split_ifs with h1 h2 h3 h4 <;> cases w <;> simp_all

/-- An illumination fraction of 0.005 classifies as New Moon for both
waxing states. -/
theorem specPhaseName_boundary :
    specPhaseName 0.005 true = "New Moon"
    ∧ specPhaseName 0.005 false = "New Moon" := by
  constructor <;>
  · unfold specPhaseName
    rw [if_pos (by norm_num : (0.005 : ℚ) < 0.01)]

end Astro

namespace Astro

/-- C1 (counterexample): at a waxing-crescent ephemeris and latitudes +30°
and −30°, `solveMoon` returns the same `phaseEmoji` for both observers,
refuting the claim that the emoji differs between `lat = +x` and
`lat = -x` for crescent phases. -/
theorem solveMoon_hemisphere_counterexample :
    (solveMoon crescentEph northInputs).phaseName = "Waxing Crescent"
    ∧ (solveMoon crescentEph southInputs).phaseName = "Waxing Crescent"
    ∧ (solveMoon crescentEph northInputs).phaseEmoji
        = (solveMoon crescentEph southInputs).phaseEmoji
    ∧ northInputs.lat = 30 ∧ southInputs.lat = -30 := by
  have habs : ¬|(0.3 : ℚ) - 0.5| < 0.05 := by
    rw [abs_of_neg (by norm_num : (0.3 : ℚ) - 0.5 < 0)]
    norm_num
  refine ⟨?_, ?_, rfl, rfl, rfl⟩ <;>
  · rw [solveMoon_phaseName_eq]
    have hw : decide (crescentEph.phaseAngleDeg ≤ 180) = true := by decide
    rw [hw]
    show specPhaseName 0.3 true = "Waxing Crescent"
    unfold specPhaseName
    rw [if_neg (by norm_num : ¬(0.3 : ℚ) < 0.01),
      if_neg (by norm_num : ¬(0.99 : ℚ) < 0.3), if_neg habs,
      if_pos (by norm_num : (0.3 : ℚ) < 0.5), if_pos rfl]

/-- C1 (amended): for every ephemeris, date, longitude and latitude `x`,
`solveMoon` returns the same `phaseEmoji` and the same `phaseName` at
latitude `x` and at latitude `-x` — no southern-hemisphere emoji mirroring
is performed, because the phase classification never reads the latitude. -/
theorem solveMoon_phase_independent_of_latitude
    (e : Ephemeris) (i : Inputs) (x : ℚ) :
    (solveMoon e { i with lat := x }).phaseEmoji
        = (solveMoon e { i with lat := -x }).phaseEmoji
    ∧ (solveMoon e { i with lat := x }).phaseName
        = (solveMoon e { i with lat := -x }).phaseName :=
  ⟨rfl, rfl⟩

/-- C3 (confirmed): whenever the phase angle supplied by the ephemeris
provider lies in `[0, 180]` — which is the range astronomy-engine
documents for `phase_angle` — the waxing test `phaseAngleDeg <= 180` of
`solveMoon` holds, so the returned `phaseName` is one of the five labels
New Moon, Full Moon, First Quarter, Waxing Crescent, Waxing Gibbous, and
never Waning Crescent, Waning Gibbous or Last Quarter. -/
theorem solveMoon_waxing_only_phases (e : Ephemeris) (i : Inputs)
    (h0 : 0 ≤ e.phaseAngleDeg) (h1 : e.phaseAngleDeg ≤ 180) :
    ((solveMoon e i).phaseName = "New Moon"
      ∨ (solveMoon e i).phaseName = "Full Moon"
      ∨ (solveMoon e i).phaseName = "First Quarter"
      ∨ (solveMoon e i).phaseName = "Waxing Crescent"
      ∨ (solveMoon e i).phaseName = "Waxing Gibbous")
    ∧ (solveMoon e i).phaseName ≠ "Waning Crescent"
    ∧ (solveMoon e i).phaseName ≠ "Waning Gibbous"
    ∧ (solveMoon e i).phaseName ≠ "Last Quarter" := by
  rw [solveMoon_phaseName_eq]
  have hw : decide (e.phaseAngleDeg ≤ 180) = true := decide_eq_true h1
  rw [hw]
  unfold specPhaseName
  split_ifs <;> simp_all

/-- C3 (witness): the hypotheses hold and the conclusion follows at the
concrete crescent ephemeris. -/
theorem solveMoon_waxing_only_phases_witness :
    (0 ≤ crescentEph.phaseAngleDeg ∧ crescentEph.phaseAngleDeg ≤ 180)
    ∧ (solveMoon crescentEph northInputs).phaseName ≠ "Waning Crescent" :=
  ⟨⟨by decide, by decide⟩,
    (solveMoon_waxing_only_phases crescentEph northInputs (by decide)
      (by decide)).2.1⟩

/-- C4 (confirmed): `solveMoon` sets `sunDir = (sin θ, 0, cos θ)` with
`θ = phaseAngleDeg·π/180`; at θ = 0 this is `(0, 0, 1)` — the direction
the scene comments label the New-Moon light — at θ = 180° it is
`(0, 0, −1)` — the Full-Moon light — and at θ = 90°/270° it is
`(1, 0, 0)`/`(−1, 0, 0)`, the quarter directions. -/
theorem solveMoon_sunDir_formula (e : Ephemeris) (i : Inputs) :
    (solveMoon e i).sunDir
        = (Real.sin ((e.phaseAngleDeg : ℝ) * (Real.pi / 180)), 0,
           Real.cos ((e.phaseAngleDeg : ℝ) * (Real.pi / 180)))
    ∧ (solveMoon { e with phaseAngleDeg := 0 } i).sunDir = (0, 0, 1)
    ∧ (solveMoon { e with phaseAngleDeg := 90 } i).sunDir = (1, 0, 0)
    ∧ (solveMoon { e with phaseAngleDeg := 180 } i).sunDir = (0, 0, -1)
    ∧ (solveMoon { e with phaseAngleDeg := 270 } i).sunDir = (-1, 0, 0) := by
  refine ⟨rfl, ?_, ?_, ?_, ?_⟩
  · have h : ((0 : ℚ) : ℝ) * (Real.pi / 180) = 0 := by push_cast; ring
    show (Real.sin (((0 : ℚ) : ℝ) * (Real.pi / 180)), (0 : ℝ),
      Real.cos (((0 : ℚ) : ℝ) * (Real.pi / 180))) = ((0 : ℝ), (0 : ℝ), (1 : ℝ))
    rw [h, Real.sin_zero, Real.cos_zero]
  · have h : ((90 : ℚ) : ℝ) * (Real.pi / 180) = Real.pi / 2 := by
      push_cast; ring
    show (Real.sin (((90 : ℚ) : ℝ) * (Real.pi / 180)), (0 : ℝ),
      Real.cos (((90 : ℚ) : ℝ) * (Real.pi / 180))) = ((1 : ℝ), (0 : ℝ), (0 : ℝ))
    rw [h, Real.sin_pi_div_two, Real.cos_pi_div_two]
  · have h : ((180 : ℚ) : ℝ) * (Real.pi / 180) = Real.pi := by push_cast; ring
    show (Real.sin (((180 : ℚ) : ℝ) * (Real.pi / 180)), (0 : ℝ),
      Real.cos (((180 : ℚ) : ℝ) * (Real.pi / 180))) = ((0 : ℝ), (0 : ℝ), (-1 : ℝ))
    rw [h, Real.sin_pi, Real.cos_pi]
  · have h : ((270 : ℚ) : ℝ) * (Real.pi / 180) = Real.pi + Real.pi / 2 := by
      push_cast; ring
    show (Real.sin (((270 : ℚ) : ℝ) * (Real.pi / 180)), (0 : ℝ),
      Real.cos (((270 : ℚ) : ℝ) * (Real.pi / 180))) = ((-1 : ℝ), (0 : ℝ), (0 : ℝ))
    rw [h, Real.sin_add, Real.cos_add]
    simp

end Astro

namespace Astro

/-- C5 (confirmed): the phase classification of `solveMoon` is the 8-way
total and exclusive partition on `(illumFraction, isWaxing)` described by
the specification thresholds, each label holding exactly on its region;
`getMoonPhase` computes the same name for every elongation value; and an
illumination fraction of 0.005 yields New Moon for both waxing states. -/
theorem solveMoon_phase_partition (e : Ephemeris) (i : Inputs)
    (h0 : 0 ≤ e.illumFraction) (h1 : e.illumFraction ≤ 1) :
    ((solveMoon e i).phaseName
        = specPhaseName e.illumFraction (decide (e.phaseAngleDeg ≤ 180)))
    ∧ (∀ elongationDeg : ℚ, ∀ w : Bool,
        (getMoonPhase e.illumFraction elongationDeg w).1
          = specPhaseName e.illumFraction w)
    ∧ ((solveMoon e i).phaseName = "New Moon" ↔ e.illumFraction < 0.01)
    ∧ ((solveMoon e i).phaseName = "Full Moon" ↔
        ¬e.illumFraction < 0.01 ∧ 0.99 < e.illumFraction)
    ∧ ((solveMoon e i).phaseName = "First Quarter" ↔
        ¬e.illumFraction < 0.01 ∧ ¬0.99 < e.illumFraction
          ∧ |e.illumFraction - 0.5| < 0.05 ∧ e.phaseAngleDeg ≤ 180)
    ∧ ((solveMoon e i).phaseName = "Last Quarter" ↔
        ¬e.illumFraction < 0.01 ∧ ¬0.99 < e.illumFraction
          ∧ |e.illumFraction - 0.5| < 0.05 ∧ ¬e.phaseAngleDeg ≤ 180)
    ∧ ((solveMoon e i).phaseName = "Waxing Crescent" ↔
        ¬e.illumFraction < 0.01 ∧ ¬0.99 < e.illumFraction
          ∧ ¬|e.illumFraction - 0.5| < 0.05 ∧ e.illumFraction < 0.5
          ∧ e.phaseAngleDeg ≤ 180)
    ∧ ((solveMoon e i).phaseName = "Waning Crescent" ↔
        ¬e.illumFraction < 0.01 ∧ ¬0.99 < e.illumFraction
          ∧ ¬|e.illumFraction - 0.5| < 0.05 ∧ e.illumFraction < 0.5
          ∧ ¬e.phaseAngleDeg ≤ 180)
    ∧ ((solveMoon e i).phaseName = "Waxing Gibbous" ↔
        ¬e.illumFraction < 0.01 ∧ ¬0.99 < e.illumFraction
          ∧ ¬|e.illumFraction - 0.5| < 0.05 ∧ ¬e.illumFraction < 0.5
          ∧ e.phaseAngleDeg ≤ 180)
    ∧ ((solveMoon e i).phaseName = "Waning Gibbous" ↔
        ¬e.illumFraction < 0.01 ∧ ¬0.99 < e.illumFraction
          ∧ ¬|e.illumFraction - 0.5| < 0.05 ∧ ¬e.illumFraction < 0.5
          ∧ ¬e.phaseAngleDeg ≤ 180)
    ∧ specPhaseName 0.005 true = "New Moon"
    ∧ specPhaseName 0.005 false = "New Moon" := by
  have hs := specPhaseName_iffs e.illumFraction (decide (e.phaseAngleDeg ≤ 180))
  simp only [decide_eq_true_eq, decide_eq_false_iff_not] at hs
  rw [solveMoon_phaseName_eq]
  exact ⟨rfl, fun elong w => getMoonPhase_name_eq e.illumFraction elong w,
    hs.1, hs.2.1, hs.2.2.1, hs.2.2.2.1, hs.2.2.2.2.1, hs.2.2.2.2.2.1,
    hs.2.2.2.2.2.2.1, hs.2.2.2.2.2.2.2, specPhaseName_boundary.1,
    specPhaseName_boundary.2⟩

/-- C5 (witness): the range hypotheses hold and the classification of the
concrete full-moon ephemeris matches the specification chain. -/
theorem solveMoon_phase_partition_witness :
    (0 ≤ fullEph.illumFraction ∧ fullEph.illumFraction ≤ 1)
    ∧ (solveMoon fullEph northInputs).phaseName
        = specPhaseName fullEph.illumFraction
            (decide (fullEph.phaseAngleDeg ≤ 180)) :=
  ⟨⟨by decide, by decide⟩,
    (solveMoon_phase_partition fullEph northInputs (by decide) (by decide)).1⟩

/-- C6 (confirmed): whenever the provider reports an illumination fraction
in `[0, 1]` and a phase angle in `[0, 360)`, the solution of `solveMoon`
has a sun direction of exactly unit length (hence within the 1e-9
tolerance), an `illumFraction` in `[0, 1]` and a `phaseAngleDeg` in
`[0, 360)`. -/
theorem solveMoon_output_invariants (e : Ephemeris) (i : Inputs)
    (hf0 : 0 ≤ e.illumFraction) (hf1 : e.illumFraction ≤ 1)
    (ha0 : 0 ≤ e.phaseAngleDeg) (ha1 : e.phaseAngleDeg < 360) :
    (solveMoon e i).sunDir.1 ^ 2 + (solveMoon e i).sunDir.2.1 ^ 2
        + (solveMoon e i).sunDir.2.2 ^ 2 = 1
    ∧ |Real.sqrt ((solveMoon e i).sunDir.1 ^ 2 + (solveMoon e i).sunDir.2.1 ^ 2
        + (solveMoon e i).sunDir.2.2 ^ 2) - 1| ≤ 1e-9
    ∧ 0 ≤ (solveMoon e i).illumFraction ∧ (solveMoon e i).illumFraction ≤ 1
    ∧ 0 ≤ (solveMoon e i).phaseAngleDeg
    ∧ (solveMoon e i).phaseAngleDeg < 360 := by
  have hsq : (solveMoon e i).sunDir.1 ^ 2 + (solveMoon e i).sunDir.2.1 ^ 2
      + (solveMoon e i).sunDir.2.2 ^ 2 = 1 := by
    show Real.sin ((e.phaseAngleDeg : ℝ) * (Real.pi / 180)) ^ 2 + (0 : ℝ) ^ 2
      + Real.cos ((e.phaseAngleDeg : ℝ) * (Real.pi / 180)) ^ 2 = 1
    simp
  refine ⟨hsq, ?_, hf0, hf1, ha0, ha1⟩
  rw [hsq, Real.sqrt_one]
  norm_num

/-- C6 (witness): the range hypotheses hold at the concrete full-moon
ephemeris and the invariants follow there. -/
theorem solveMoon_output_invariants_witness :
    (0 ≤ fullEph.illumFraction ∧ fullEph.illumFraction ≤ 1
      ∧ 0 ≤ fullEph.phaseAngleDeg ∧ fullEph.phaseAngleDeg < 360)
    ∧ (0 ≤ (solveMoon fullEph northInputs).illumFraction
      ∧ (solveMoon fullEph northInputs).illumFraction ≤ 1) :=
  ⟨⟨by decide, by decide, by decide, by decide⟩,
    ⟨(solveMoon_output_invariants fullEph northInputs (by decide) (by decide)
        (by decide) (by decide)).2.2.1,
      (solveMoon_output_invariants fullEph northInputs (by decide) (by decide)
        (by decide) (by decide)).2.2.2.1⟩⟩

/-- C7 (confirmed): `normalizeHours` maps every value into `[0, 24)`, and
the parallactic angle of `solveMoon` is exactly
`atan2 (sin H) (tan φ · cos δ − sin δ · cos H)` where
`H = normalizeHours (normalizeHours (GST + lon/15) − RA) · π/12`,
`φ` is the observer latitude in radians and `δ` the Moon declination in
radians. -/
theorem solveMoon_parallactic_angle_algorithm
    (e : Ephemeris) (i : Inputs) (x : ℚ) :
    (0 ≤ normalizeHours x ∧ normalizeHours x < 24)
    ∧ (solveMoon e i).parallacticAngleRad
        = atan2
            (Real.sin
              ((normalizeHours (normalizeHours (e.gst + i.lon / 15) - e.ra) : ℝ)
                * (Real.pi / 12)))
            (Real.tan ((i.lat : ℝ) * (Real.pi / 180))
                * Real.cos ((e.dec : ℝ) * (Real.pi / 180))
              - Real.sin ((e.dec : ℝ) * (Real.pi / 180))
                * Real.cos
                  ((normalizeHours (normalizeHours (e.gst + i.lon / 15) - e.ra) : ℝ)
                    * (Real.pi / 12))) :=
  ⟨normalizeHours_bounds x, rfl⟩

/-- C8 (confirmed): the distance field of the solution is the provider
distance in astronomical units multiplied by the constant 149597870.7,
which is exactly the rational 1495978707/10. -/
theorem solveMoon_distance_km_conversion (e : Ephemeris) (i : Inputs) :
    (solveMoon e i).distanceKm = (e.dist : ℝ) * 149597870.7
    ∧ (149597870.7 : ℝ) = 1495978707 / 10 :=
  ⟨rfl, by norm_num⟩

/-- C9 (confirmed): `getLocationName` resolves with the coordinate pair
formatted to four decimal places whenever the fetch/parse fails or the
response carries no usable address, and the formatting renders four
digits after the decimal point. -/
theorem getLocationName_coordinate_fallback (lat lon : ℚ) (msg : String) :
    getLocationName lat lon (Except.error msg) = coordFallback lat lon
    ∧ getLocationName lat lon (Except.ok ⟨none⟩) = coordFallback lat lon
    ∧ getLocationName lat lon (Except.ok ⟨some ⟨"", "", "", "", "", ""⟩⟩)
        = coordFallback lat lon
    ∧ coordFallback lat lon = toFixed4 lat ++ "°, " ++ toFixed4 lon ++ "°"
    ∧ toFixed4 (-37.8136) = "-37.8136"
    ∧ toFixed4 (144.9631) = "144.9631" := by
  refine ⟨rfl, rfl, ?_, rfl, ?_, ?_⟩
  · simp [getLocationName, jsOr]
  · unfold toFixed4
    rw [if_pos (show (-37.8136 : ℚ) < 0 by norm_num)]
    have habs : |(-37.8136 : ℚ)| = 37.8136 := by
      rw [abs_of_neg (by norm_num : (-37.8136 : ℚ) < 0)]
      norm_num
    rw [habs]
    have hfl : ⌊(37.8136 : ℚ) * 10000 + 1 / 2⌋ = 378136 := by
      rw [Int.floor_eq_iff]
      constructor <;> norm_num
    rw [hfl]
    rfl
  · unfold toFixed4
    rw [if_neg (show ¬(144.9631 : ℚ) < 0 by norm_num)]
    have habs : |(144.9631 : ℚ)| = 144.9631 := by
      rw [abs_of_nonneg (by norm_num : (0 : ℚ) ≤ 144.9631)]
    rw [habs]
    have hfl : ⌊(144.9631 : ℚ) * 10000 + 1 / 2⌋ = 1449631 := by
      rw [Int.floor_eq_iff]
      constructor <;> norm_num
    rw [hfl]
    rfl

/-- C10 (confirmed): the UI boundary substitutes the fixed fallback
solution — sun direction `(1, 0, 0)`, 50% illumination, phase name
Unknown — when the solver call throws, and passes a successful solution
through unchanged. -/
theorem appSolveMoon_fallback_policy (msg : String) (sol : MoonSolution) :
    appSolveMoon (Except.error msg) = fallbackSolution
    ∧ appSolveMoon (Except.ok sol) = sol
    ∧ fallbackSolution.illumFraction = 0.5
    ∧ fallbackSolution.phaseName = "Unknown"
    ∧ fallbackSolution.phaseEmoji = "🌕"
    ∧ fallbackSolution.sunDir = (1, 0, 0)
    ∧ fallbackSolution.phaseAngleDeg = 90 :=
  ⟨rfl, rfl, rfl, rfl, rfl, rfl, rfl⟩

end Astro
